import Mathlib

/-!
Verification of the zanifu-guard-link fraud-detection, OTP and webhook logic.

The definitions below are shallow embeddings of:
  * `check_order_fraud` and `set_fraud_flag_approval_requirement`
    (supabase/migrations SQL trigger functions),
  * the `send-2fa-code` / `verify-2fa-code` edge-function handlers,
  * the `mpesa-callback` edge-function handler,
  * the admin-role gate of the `admin-actions` edge-function handler.

Timestamps are integers (seconds), monetary amounts are rationals
(matching SQL NUMERIC), ids are naturals.  Database tables are lists of
row structures; each handler is a pure function from the table state (and
any nondeterministic inputs, passed explicitly) to the response and the
new state.
-/

namespace ZanifuGuard

/-- A row of `public.orders` (the fields `check_order_fraud` reads). -/
structure Order where
  id : Nat
  user_id : Nat
  total_amount : ℚ
  created_at : Int
  deriving Repr, DecidableEq

/-- A fraud-flag insert as issued by `check_order_fraud`:
`INSERT INTO fraud_flags (user_id, order_id, flag_type, severity, description, metadata)`.
Metadata is the single numeric field each branch builds with
`jsonb_build_object`. -/
structure FlagInsert where
  user_id : Nat
  order_id : Nat
  flag_type : String
  severity : String
  description : String
  metadata_key : String
  metadata_value : ℚ
  deriving Repr, DecidableEq

/-- Velocity window: `NOW() - INTERVAL 1 hour` in seconds. -/
def oneHour : Int := 3600

/-- Daily window: `NOW() - INTERVAL 24 hours` in seconds. -/
def twentyFourHours : Int := 86400

/-- The velocity count of `check_order_fraud`:
`SELECT COUNT(*) FROM orders WHERE user_id = NEW.user_id AND
 created_at > NOW() minus one hour AND id != NEW.id`.
`db` is the orders table state after the insert of `newO` (the trigger
is AFTER INSERT). -/
def recentOrderCount (db : List Order) (newO : Order) (now : Int) : Nat :=
  (db.filter (fun o =>
    o.user_id == newO.user_id && decide (o.created_at > now - oneHour)
      && o.id != newO.id)).length

/-- The daily total of `check_order_fraud`:
`SELECT COALESCE(SUM(total_amount), 0) FROM orders WHERE user_id = NEW.user_id
 AND created_at > NOW() minus 24 hours AND id != NEW.id`. -/
def userTotalToday (db : List Order) (newO : Order) (now : Int) : ℚ :=
  ((db.filter (fun o =>
    o.user_id == newO.user_id && decide (o.created_at > now - twentyFourHours)
      && o.id != newO.id)).map Order.total_amount).sum

/-- The list of fraud-flag rows `check_order_fraud` inserts for a newly
inserted order `newO`, given the post-insert orders table `db` and the
current time `now`.  The three branches run unconditionally and in the
source order: velocity, high value, daily limit. -/
def check_order_fraud (db : List Order) (newO : Order) (now : Int) :
    List FlagInsert :=
  let cnt := recentOrderCount db newO now
  let velocityFlags :=
    if cnt ≥ 3 then
      [{ user_id := newO.user_id, order_id := newO.id,
         flag_type := "velocity", severity := "high",
         description := "Multiple orders placed within 1 hour",
         metadata_key := "order_count", metadata_value := (cnt : ℚ) + 1 }]
    else []
  let highValueFlags :=
    if newO.total_amount > 500 then
      [{ user_id := newO.user_id, order_id := newO.id,
         flag_type := "high_value", severity := "medium",
         description := "Order amount exceeds threshold",
         metadata_key := "amount", metadata_value := newO.total_amount }]
    else []
  let dailyTotal := userTotalToday db newO now
  let dailyFlags :=
    if dailyTotal + newO.total_amount > 1000 then
      [{ user_id := newO.user_id, order_id := newO.id,
         flag_type := "daily_limit", severity := "high",
         description := "Daily spending limit exceeded",
         metadata_key := "daily_total", metadata_value := dailyTotal + newO.total_amount }]
    else []
  velocityFlags ++ highValueFlags ++ dailyFlags

/-- The high-value flags among the inserts for one order. -/
def highValueFlagsOf (flags : List FlagInsert) : List FlagInsert :=
  flags.filter (fun f => f.flag_type == "high_value")

/-- The velocity flags among the inserts for one order. -/
def velocityFlagsOf (flags : List FlagInsert) : List FlagInsert :=
  flags.filter (fun f => f.flag_type == "velocity")

/-- The daily-limit flags among the inserts for one order. -/
def dailyLimitFlagsOf (flags : List FlagInsert) : List FlagInsert :=
  flags.filter (fun f => f.flag_type == "daily_limit")

/-- C2: for every newly inserted order, a high_value/medium flag carrying the
amount is created iff total_amount > 500; otherwise no high_value flag. -/
theorem highValue_flag_iff (db : List Order) (newO : Order) (now : Int) :
    highValueFlagsOf (check_order_fraud db newO now) =
      (if newO.total_amount > 500 then
        [{ user_id := newO.user_id, order_id := newO.id,
           flag_type := "high_value", severity := "medium",
           description := "Order amount exceeds threshold",
           metadata_key := "amount", metadata_value := newO.total_amount }]
      else []) := by
  unfold highValueFlagsOf check_order_fraud
  by_cases h1 : 3 ≤ recentOrderCount db newO now <;>
    by_cases h2 : newO.total_amount > 500 <;>
    by_cases h3 : userTotalToday db newO now + newO.total_amount > 1000 <;>
    simp [h1, h2, h3, List.filter_append, List.filter]

/-- The count a caller can state over the pre-insert table: prior orders of
the same user inside the trailing 1-hour window. -/
def priorHourCount (prior : List Order) (newO : Order) (now : Int) : Nat :=
  (prior.filter (fun o =>
    o.user_id == newO.user_id && decide (o.created_at > now - oneHour))).length

/-- The sum a caller can state over the pre-insert table: total_amount of
prior orders of the same user inside the trailing 24-hour window. -/
def priorDaySum (prior : List Order) (newO : Order) (now : Int) : ℚ :=
  ((prior.filter (fun o =>
    o.user_id == newO.user_id && decide (o.created_at > now - twentyFourHours))).map
      Order.total_amount).sum

theorem recentOrderCount_append (prior : List Order) (newO : Order) (now : Int)
    (hfresh : ∀ o ∈ prior, o.id ≠ newO.id) :
    recentOrderCount (prior ++ [newO]) newO now = priorHourCount prior newO now := by
  unfold recentOrderCount priorHourCount
  rw [List.filter_append]
  have h2 : (List.filter (fun o =>
      o.user_id == newO.user_id && decide (o.created_at > now - oneHour)
        && o.id != newO.id) [newO]) = [] := by
    simp [List.filter]
  rw [h2, List.append_nil]
  congr 1
  apply List.filter_congr
  intro o ho
  have : (o.id != newO.id) = true := by
    simpa using hfresh o ho
  simp [this]

theorem userTotalToday_append (prior : List Order) (newO : Order) (now : Int)
    (hfresh : ∀ o ∈ prior, o.id ≠ newO.id) :
    userTotalToday (prior ++ [newO]) newO now = priorDaySum prior newO now := by
  unfold userTotalToday priorDaySum
  rw [List.filter_append]
  have h2 : (List.filter (fun o =>
      o.user_id == newO.user_id && decide (o.created_at > now - twentyFourHours)
        && o.id != newO.id) [newO]) = [] := by
    simp [List.filter]
  rw [h2, List.append_nil]
  congr 2
  apply List.filter_congr
  intro o ho
  have : (o.id != newO.id) = true := by
    simpa using hfresh o ho
  simp [this]

/-- C1: if the id of the new order is fresh, the velocity flags inserted for it are
exactly one velocity/high flag with order_count = prior-hour count + 1 when
that prior count is at least 3, and none otherwise. -/
theorem velocity_flag_iff (prior : List Order) (newO : Order) (now : Int)
    (hfresh : ∀ o ∈ prior, o.id ≠ newO.id) :
    velocityFlagsOf (check_order_fraud (prior ++ [newO]) newO now) =
      (if 3 ≤ priorHourCount prior newO now then
        [{ user_id := newO.user_id, order_id := newO.id,
           flag_type := "velocity", severity := "high",
           description := "Multiple orders placed within 1 hour",
           metadata_key := "order_count",
           metadata_value := (priorHourCount prior newO now : ℚ) + 1 }]
      else []) := by
  unfold velocityFlagsOf check_order_fraud
  rw [recentOrderCount_append prior newO now hfresh]
  by_cases h1 : 3 ≤ priorHourCount prior newO now <;>
    by_cases h2 : newO.total_amount > 500 <;>
    by_cases h3 : userTotalToday (prior ++ [newO]) newO now + newO.total_amount > 1000 <;>
    simp [h1, h2, h3, List.filter_append, List.filter]

/-- C1 witness: the 4th order of a user inside the hour gets exactly one
velocity/high flag whose order_count is 4. -/
theorem velocity_flag_iff_witness :
    velocityFlagsOf (check_order_fraud
      ([⟨1, 7, 50, 100⟩, ⟨2, 7, 50, 200⟩, ⟨3, 7, 50, 300⟩] ++ [⟨4, 7, 50, 400⟩])
      ⟨4, 7, 50, 400⟩ 400) =
      [{ user_id := 7, order_id := 4, flag_type := "velocity", severity := "high",
         description := "Multiple orders placed within 1 hour",
         metadata_key := "order_count", metadata_value := 4 }] := by
  rw [velocity_flag_iff _ _ _ (by decide)]
  norm_num [priorHourCount, oneHour, List.filter]

/-- C3: if the id of the new order is fresh, the daily-limit flags inserted for it
are exactly one daily_limit/high flag carrying the combined 24-hour total when
prior-day sum + new amount exceeds 1000, and none otherwise. -/
theorem daily_limit_flag_iff (prior : List Order) (newO : Order) (now : Int)
    (hfresh : ∀ o ∈ prior, o.id ≠ newO.id) :
    dailyLimitFlagsOf (check_order_fraud (prior ++ [newO]) newO now) =
      (if priorDaySum prior newO now + newO.total_amount > 1000 then
        [{ user_id := newO.user_id, order_id := newO.id,
           flag_type := "daily_limit", severity := "high",
           description := "Daily spending limit exceeded",
           metadata_key := "daily_total",
           metadata_value := priorDaySum prior newO now + newO.total_amount }]
      else []) := by
  unfold dailyLimitFlagsOf check_order_fraud
  rw [userTotalToday_append prior newO now hfresh]
  by_cases h1 : 3 ≤ recentOrderCount (prior ++ [newO]) newO now <;>
    by_cases h2 : newO.total_amount > 500 <;>
    by_cases h3 : priorDaySum prior newO now + newO.total_amount > 1000 <;>
    simp [h1, h2, h3, List.filter_append, List.filter]

/-- C3 witness: prior-day spending 700 plus a 400 order crosses 1000 and
yields exactly one daily_limit/high flag with daily_total 1100. -/
theorem daily_limit_flag_iff_witness :
    dailyLimitFlagsOf (check_order_fraud
      ([⟨1, 7, 700, 100⟩] ++ [⟨2, 7, 400, 50000⟩]) ⟨2, 7, 400, 50000⟩ 50000) =
      [{ user_id := 7, order_id := 2, flag_type := "daily_limit", severity := "high",
         description := "Daily spending limit exceeded",
         metadata_key := "daily_total", metadata_value := 1100 }] := by
  rw [daily_limit_flag_iff _ _ _ (by decide)]
  norm_num [priorDaySum, twentyFourHours, List.filter]

/-- A row of `public.fraud_flags` as seen by the BEFORE INSERT trigger
`set_fraud_flag_approval_requirement` (the fields it reads or writes,
plus identifiers). -/
structure FraudFlagRow where
  id : Nat
  flag_type : String
  severity : String
  requires_approval : Bool
  deriving Repr, DecidableEq

/-- The trigger function `set_fraud_flag_approval_requirement`: if
`NEW.severity = high` it sets `NEW.requires_approval := true`,
otherwise it returns NEW unchanged. -/
def set_fraud_flag_approval_requirement (row : FraudFlagRow) : FraudFlagRow :=
  if row.severity = "high" then { row with requires_approval := true } else row

/-- Inserting into `fraud_flags`: the BEFORE INSERT trigger rewrites the
row, then the row is appended to the table. -/
def insertFraudFlag (tbl : List FraudFlagRow) (row : FraudFlagRow) : List FraudFlagRow :=
  tbl ++ [set_fraud_flag_approval_requirement row]

/-- The invariant of claim C4: every high-severity flag row requires
approval. -/
def highApprovalInv (tbl : List FraudFlagRow) : Prop :=
  ∀ r ∈ tbl, r.severity = "high" → r.requires_approval = true

instance (tbl : List FraudFlagRow) : Decidable (highApprovalInv tbl) := by
  unfold highApprovalInv
  infer_instance

/-- C4: from any table satisfying the invariant, any sequence of inserts —
whatever requires_approval value each supplied row carries — yields a table
in which every severity-high row has requires_approval = true. -/
theorem high_approval_invariant_preserved (init : List FraudFlagRow)
    (inserts : List FraudFlagRow) (hinit : highApprovalInv init) :
    highApprovalInv (inserts.foldl insertFraudFlag init) := by
  induction inserts generalizing init with
  | nil => exact hinit
  | cons row rest ih =>
    apply ih
    intro r hr hsev
    rcases List.mem_append.mp hr with hmem | hmem
    · exact hinit r hmem hsev
    · simp only [List.mem_singleton] at hmem
      subst hmem
      unfold set_fraud_flag_approval_requirement at hsev ⊢
      by_cases h : row.severity = "high" <;> simp [h] at hsev ⊢

/-- C4 witness: inserting a high-severity row supplied with
requires_approval = false into the empty table still satisfies the
invariant. -/
theorem high_approval_invariant_preserved_witness :
    highApprovalInv
      (List.foldl insertFraudFlag []
        [{ id := 1, flag_type := "velocity", severity := "high",
           requires_approval := false }]) :=
  high_approval_invariant_preserved []
    [{ id := 1, flag_type := "velocity", severity := "high",
       requires_approval := false }] (by decide)

/-- The OTP generator of `send-2fa-code`:
`Math.floor(100000 + Math.random() * 900000)`, where `Math.random()`
yields a value `r` with `0 ≤ r < 1`.  The numeric value is then rendered
with `.toString()` (no padding). -/
def generateCode (r : ℚ) : Nat := (Int.floor ((100000 : ℚ) + r * 900000)).toNat

/-- C7 counterexample: no admissible value of `Math.random()` can make the
generator produce 12345 (the code whose decimal rendering would be the
zero-padded string 012345); outputs below 100000 are unreachable, so the
claimed full range 000000 to 999999 with leading zeros is wrong. -/
theorem generateCode_no_leading_zero_cex :
    ¬ ∃ r : ℚ, 0 ≤ r ∧ r < 1 ∧ generateCode r = 12345 := by
  rintro ⟨r, hr0, _, heq⟩
  have hfl : (100000 : ℤ) ≤ Int.floor ((100000 : ℚ) + r * 900000) := by
    apply Int.le_floor.mpr
    push_cast
    nlinarith
  unfold generateCode at heq
  omega

/-- C7 amended: for every admissible random draw `0 ≤ r < 1`, the generated
code lies in 100000–999999: always exactly six decimal digits, never a
leading zero, never zero-padded. -/
theorem generateCode_range (r : ℚ) (hr0 : 0 ≤ r) (hr1 : r < 1) :
    100000 ≤ generateCode r ∧ generateCode r ≤ 999999 := by
  have hfl : (100000 : ℤ) ≤ Int.floor ((100000 : ℚ) + r * 900000) := by
    apply Int.le_floor.mpr
    push_cast
    nlinarith
  have hfu : Int.floor ((100000 : ℚ) + r * 900000) < 1000000 := by
    apply Int.floor_lt.mpr
    push_cast
    nlinarith
  unfold generateCode
  omega

/-- C7 amended witness: the draw r = 1/2 gives the code 550000, inside the
proved range. -/
theorem generateCode_range_witness :
    100000 ≤ generateCode (1 / 2) ∧ generateCode (1 / 2) ≤ 999999 :=
  generateCode_range (1 / 2) (by norm_num) (by norm_num)

/-- A row of `public.two_factor_codes`. -/
structure TFCode where
  id : Nat
  user_id : Nat
  email : String
  code : String
  created_at : Int
  expires_at : Int
  used : Bool
  deriving Repr, DecidableEq

/-- Ten minutes in seconds: the `expires_at` column default is
`now() + interval 10 minutes`. -/
def tenMinutes : Int := 600

/-- The invalidation step of `send-2fa-code`:
`UPDATE two_factor_codes SET used = true WHERE user_id = userId AND used = false`. -/
def invalidateUnused (db : List TFCode) (userId : Nat) : List TFCode :=
  db.map (fun r =>
    if r.user_id == userId && r.used == false then { r with used := true } else r)

/-- The row inserted by `send-2fa-code`; `created_at` and `expires_at`
come from the column defaults (`now()` and `now() + 10 minutes`). -/
def newCodeRow (userId : Nat) (email code : String) (now : Int) (newId : Nat) : TFCode :=
  { id := newId, user_id := userId, email := email, code := code,
    created_at := now, expires_at := now + tenMinutes, used := false }

/-- The database effect of a successful issuance in `send-2fa-code`:
invalidate the unused codes of the user, then append the new row. -/
def send_2fa_issue (db : List TFCode) (userId : Nat) (email code : String)
    (now : Int) (newId : Nat) : List TFCode :=
  invalidateUnused db userId ++ [newCodeRow userId email code now newId]

theorem invalidateUnused_no_unused (db : List TFCode) (userId : Nat) :
    (invalidateUnused db userId).filter
      (fun r => r.user_id == userId && r.used == false) = [] := by
  induction db with
  | nil => rfl
  | cons r rs ih =>
    rcases hu : (r.user_id == userId) <;> rcases hs : r.used <;>
      simp_all [invalidateUnused, List.filter_cons]

theorem invalidateUnused_other_users (db : List TFCode) (userId : Nat) :
    (invalidateUnused db userId).filter (fun r => r.user_id != userId) =
      db.filter (fun r => r.user_id != userId) := by
  induction db with
  | nil => rfl
  | cons r rs ih =>
    rcases hu : (r.user_id == userId) <;> rcases hs : r.used <;>
      simp_all [invalidateUnused, List.filter_cons]

/-- C5: after issuance, the only unused code row of the user is exactly the new
one (hence at most one unused, unexpired code), the new row expires ten
minutes after its creation, and rows of every other user are untouched. -/
theorem send_2fa_single_active_code (db : List TFCode) (userId : Nat)
    (email code : String) (now : Int) (newId : Nat) :
    (send_2fa_issue db userId email code now newId).filter
        (fun r => r.user_id == userId && r.used == false) =
      [newCodeRow userId email code now newId]
    ∧ (newCodeRow userId email code now newId).expires_at =
        (newCodeRow userId email code now newId).created_at + tenMinutes
    ∧ (send_2fa_issue db userId email code now newId).filter
        (fun r => r.user_id != userId) =
      db.filter (fun r => r.user_id != userId) := by
  refine ⟨?_, rfl, ?_⟩
  · unfold send_2fa_issue
    rw [List.filter_append, invalidateUnused_no_unused]
    simp [newCodeRow, List.filter]
  · unfold send_2fa_issue
    rw [List.filter_append, invalidateUnused_other_users]
    simp [newCodeRow, List.filter]

/-- Outcome of the `resend.emails.send` call in `send-2fa-code`: the
promise resolves with data, resolves with an error field, or rejects. -/
inductive EmailOutcome
  | delivered
  | errorResult
  | thrown
  deriving Repr, DecidableEq

/-- The HTTP response of the `send-2fa-code` handler (status and the
success field of the JSON body). -/
structure SendResponse where
  status : Nat
  success : Bool
  deriving Repr, DecidableEq

/-- The `send-2fa-code` handler: reject missing fields with 400; otherwise
invalidate the unused codes of the user, insert the new code row (500 if the
insert errors, with the invalidation already applied), then dispatch the
email — a rejected send is caught and answered 500, while a resolved send
is answered 200 success without inspecting its error field.  No database
step is ever rolled back. -/
def send_2fa_code (db : List TFCode) (userId : Option Nat) (email : Option String)
    (code : String) (now : Int) (newId : Nat) (insertFails : Bool)
    (outcome : EmailOutcome) : SendResponse × List TFCode :=
  match userId, email with
  | some u, some e =>
    let db1 := invalidateUnused db u
    if insertFails then ({ status := 500, success := false }, db1)
    else
      let db2 := db1 ++ [newCodeRow u e code now newId]
      match outcome with
      | .thrown => ({ status := 500, success := false }, db2)
      | _ => ({ status := 200, success := true }, db2)
  | _, _ => ({ status := 400, success := false }, db)

/-- C8 counterexample: with one unused code stored for user 7, a dispatch
failure (rejected promise) leaves the handler answering 500, yet the
database is not the pre-request state: the prior code row is invalidated
and the freshly inserted code row persists unused. -/
theorem send_2fa_dispatch_failure_cex :
    (send_2fa_code [⟨1, 7, "a@b.c", "111111", 0, 600, false⟩] (some 7)
        (some "a@b.c") "222222" 1000 2 false .thrown).1.status = 500
    ∧ (send_2fa_code [⟨1, 7, "a@b.c", "111111", 0, 600, false⟩] (some 7)
        (some "a@b.c") "222222" 1000 2 false .thrown).2 ≠
      [⟨1, 7, "a@b.c", "111111", 0, 600, false⟩]
    ∧ (send_2fa_code [⟨1, 7, "a@b.c", "111111", 0, 600, false⟩] (some 7)
        (some "a@b.c") "222222" 1000 2 false .thrown).2 =
      [⟨1, 7, "a@b.c", "111111", 0, 600, true⟩,
       ⟨2, 7, "a@b.c", "222222", 1000, 1600, false⟩] := by
  refine ⟨rfl, ?_, rfl⟩
  decide

/-- C8 amended: when the insert succeeds, a rejected email dispatch makes
the handler answer 500 while the mutated table (prior codes invalidated,
new code row appended and usable) persists; a dispatch resolving with an
error result is not detected and the handler answers 200 success over the
same mutated table. -/
theorem send_2fa_dispatch_failure_persists (db : List TFCode) (u : Nat)
    (e code : String) (now : Int) (newId : Nat) :
    send_2fa_code db (some u) (some e) code now newId false .thrown =
      ({ status := 500, success := false }, send_2fa_issue db u e code now newId)
    ∧ send_2fa_code db (some u) (some e) code now newId false .errorResult =
      ({ status := 200, success := true }, send_2fa_issue db u e code now newId) :=
  ⟨rfl, rfl⟩

/-- The row filter of the lookup in `verify-2fa-code`:
`user_id = userId AND code = code AND used = false AND expires_at > now`. -/
def matchingCode (userId : Nat) (code : String) (now : Int) (r : TFCode) : Bool :=
  r.user_id == userId && r.code == code && r.used == false
    && decide (r.expires_at > now)

/-- `ORDER BY created_at DESC LIMIT 1` over the filtered rows: keep the
row with the latest created_at (first such row on ties). -/
def pickLatest : List TFCode → Option TFCode → Option TFCode
  | [], acc => acc
  | r :: rs, none => pickLatest rs (some r)
  | r :: rs, some b =>
      pickLatest rs (if r.created_at > b.created_at then some r else some b)

/-- The `maybeSingle` lookup of `verify-2fa-code`. -/
def lookupValidCode (db : List TFCode) (userId : Nat) (code : String)
    (now : Int) : Option TFCode :=
  pickLatest (db.filter (matchingCode userId code now)) none

/-- The HTTP response of the `verify-2fa-code` handler. -/
structure VerifyResult where
  status : Nat
  valid : Bool
  message : String
  deriving Repr, DecidableEq

/-- The not-found / replay / expired response: HTTP 200, valid false. -/
def invalidResp : VerifyResult :=
  { status := 200, valid := false, message := "Invalid or expired verification code" }

/-- The success response: HTTP 200, valid true. -/
def validResp : VerifyResult :=
  { status := 200, valid := true, message := "Verification successful" }

/-- `UPDATE two_factor_codes SET used = true WHERE id = codeRecord.id`. -/
def markUsed (db : List TFCode) (codeId : Nat) : List TFCode :=
  db.map (fun x => if x.id == codeId then { x with used := true } else x)

/-- The `verify-2fa-code` handler on the two_factor_codes table: look up
the most recent matching unused unexpired row; if none, answer 200
valid=false; if found, mark it used and answer 200 valid=true. -/
def verify_2fa (db : List TFCode) (userId : Nat) (code : String) (now : Int) :
    VerifyResult × List TFCode :=
  match lookupValidCode db userId code now with
  | none => (invalidResp, db)
  | some r => (validResp, markUsed db r.id)

theorem pickLatest_isSome (l : List TFCode) (b : TFCode) :
    (pickLatest l (some b)).isSome = true := by
  induction l generalizing b with
  | nil => rfl
  | cons r rs ih =>
    by_cases h : r.created_at > b.created_at <;> simp [pickLatest, h, ih]

theorem pickLatest_mem (l : List TFCode) (acc : Option TFCode) (r : TFCode)
    (h : pickLatest l acc = some r) : r ∈ l ∨ acc = some r := by
  induction l generalizing acc with
  | nil => exact Or.inr h
  | cons x xs ih =>
    cases acc with
    | none =>
      have h2 : pickLatest xs (some x) = some r := h
      rcases ih (some x) h2 with hmem | heq
      · exact Or.inl (List.mem_cons_of_mem x hmem)
      · have hx : x = r := by injection heq
        subst hx
        exact Or.inl (List.mem_cons_self x xs)
    | some b =>
      have h2 : pickLatest xs
          (if x.created_at > b.created_at then some x else some b) = some r := h
      rcases ih _ h2 with hmem | heq
      · exact Or.inl (List.mem_cons_of_mem x hmem)
      · by_cases hc : x.created_at > b.created_at
        · rw [if_pos hc] at heq
          have hx : x = r := by injection heq
          subst hx
          exact Or.inl (List.mem_cons_self x xs)
        · rw [if_neg hc] at heq
          exact Or.inr heq

theorem lookupValidCode_eq_none_iff (db : List TFCode) (userId : Nat)
    (code : String) (now : Int) :
    lookupValidCode db userId code now = none ↔
      db.filter (matchingCode userId code now) = [] := by
  unfold lookupValidCode
  cases h : db.filter (matchingCode userId code now) with
  | nil => simp [pickLatest]
  | cons r rs =>
    constructor
    · intro hn
      have hs : (pickLatest rs (some r)).isSome = true := pickLatest_isSome rs r
      have hn2 : pickLatest rs (some r) = none := hn
      rw [hn2] at hs
      cases hs
    · intro hc
      cases hc

theorem lookupValidCode_mem (db : List TFCode) (userId : Nat) (code : String)
    (now : Int) (r : TFCode) (h : lookupValidCode db userId code now = some r) :
    r ∈ db ∧ matchingCode userId code now r = true := by
  unfold lookupValidCode at h
  rcases pickLatest_mem _ none r h with hmem | heq
  · exact ⟨(List.mem_filter.mp hmem).1, (List.mem_filter.mp hmem).2⟩
  · cases heq

/-- C6: validity is reported (HTTP 200) exactly when a row matches
(user_id, code, used=false, expires_at>now); a failed lookup leaves the
table untouched; a successful lookup consumes the row, so — when matching
rows share one id, as issuance guarantees — replaying the same code
fails with the same invalid-or-expired 200 response; and a correct code
whose expiry has passed fails the same way. -/
theorem verify_2fa_spec (db : List TFCode) (userId : Nat) (code : String)
    (now : Int)
    (hUnique : ∀ r ∈ db, ∀ s ∈ db, matchingCode userId code now r = true →
      matchingCode userId code now s = true → r.id = s.id) :
    ((verify_2fa db userId code now).1.valid = true ↔
      ∃ r ∈ db, matchingCode userId code now r = true)
    ∧ (verify_2fa db userId code now).1.status = 200
    ∧ ((verify_2fa db userId code now).1.valid = false →
        (verify_2fa db userId code now).1 = invalidResp
        ∧ (verify_2fa db userId code now).2 = db)
    ∧ ((verify_2fa db userId code now).1.valid = true →
        (verify_2fa (verify_2fa db userId code now).2 userId code now).1 =
          invalidResp)
    ∧ ((∀ r ∈ db, r.user_id = userId → r.code = code → r.used = false →
          r.expires_at ≤ now) →
        (verify_2fa db userId code now).1 = invalidResp) := by
  cases hlk : lookupValidCode db userId code now with
  | none =>
    have hfil : db.filter (matchingCode userId code now) = [] :=
      (lookupValidCode_eq_none_iff db userId code now).mp hlk
    have hnone : ∀ r ∈ db, ¬ matchingCode userId code now r = true := by
      intro r hr hm
      have hmem : r ∈ db.filter (matchingCode userId code now) :=
        List.mem_filter.mpr ⟨hr, hm⟩
      rw [hfil] at hmem
      cases hmem
    refine ⟨?_, ?_, ?_, ?_, ?_⟩
    · simp only [verify_2fa, hlk]
      constructor
      · intro hv
        cases hv
      · rintro ⟨r, hr, hm⟩
        exact absurd hm (hnone r hr)
    · simp [verify_2fa, hlk, invalidResp]
    · intro _
      simp [verify_2fa, hlk]
    · intro hv
      simp only [verify_2fa, hlk] at hv
      cases hv
    · intro _
      simp [verify_2fa, hlk]
  | some f =>
    obtain ⟨hfmem, hfmatch⟩ := lookupValidCode_mem db userId code now f hlk
    refine ⟨?_, ?_, ?_, ?_, ?_⟩
    · simp only [verify_2fa, hlk]
      exact ⟨fun _ => ⟨f, hfmem, hfmatch⟩, fun _ => rfl⟩
    · simp [verify_2fa, hlk, validResp]
    · intro hv
      simp only [verify_2fa, hlk, validResp] at hv
      cases hv
    · intro _
      have hfil2 : (markUsed db f.id).filter (matchingCode userId code now) = [] := by
        rw [List.filter_eq_nil_iff]
        intro x hx
        obtain ⟨y, hy, hxy⟩ := List.mem_map.mp hx
        by_cases hid : (y.id == f.id) = true
        · rw [if_pos hid] at hxy
          subst hxy
          simp [matchingCode]
        · rw [if_neg (by simpa using hid)] at hxy
          subst hxy
          intro hm
          exact hid (by simpa using hUnique y hy f hfmem hm hfmatch)
      have hlk2 : lookupValidCode (markUsed db f.id) userId code now = none :=
        (lookupValidCode_eq_none_iff _ userId code now).mpr hfil2
      simp [verify_2fa, hlk, hlk2]
    · intro hexp
      exfalso
      simp only [matchingCode, Bool.and_eq_true, beq_iff_eq, decide_eq_true_eq] at hfmatch
      obtain ⟨⟨⟨hu, hc⟩, hus⟩, hex⟩ := hfmatch
      have := hexp f hfmem hu hc (by simpa using hus)
      omega

/-- C6 witness: with a single stored unexpired code for user 7, the
validity iff of `verify_2fa_spec` holds at that concrete table. -/
theorem verify_2fa_spec_witness :
    ((verify_2fa [⟨1, 7, "a@b.c", "123456", 0, 600, false⟩] 7 "123456" 100).1.valid = true ↔
      ∃ r ∈ [(⟨1, 7, "a@b.c", "123456", 0, 600, false⟩ : TFCode)],
        matchingCode 7 "123456" 100 r = true) :=
  (verify_2fa_spec [⟨1, 7, "a@b.c", "123456", 0, 600, false⟩] 7 "123456" 100
    (by decide)).1

/-- What `await req.json()` and the `Body.stkCallback` access yield in the
`mpesa-callback` handler: the parse throws, the parsed object lacks
`Body.stkCallback`, or a callback with a ResultCode is present. -/
inductive CallbackBody
  | parseError
  | missingStk
  | stk (resultCode : Int)
  deriving Repr, DecidableEq

/-- The fixed acknowledgment JSON body. -/
structure AckBody where
  resultCode : Int
  resultDesc : String
  deriving Repr, DecidableEq

/-- The possible responses of the `mpesa-callback` handler: the empty CORS
preflight reply, or an acknowledgment with a status and body. -/
inductive CallbackResponse
  | preflight
  | ack (status : Nat) (body : AckBody)
  deriving Repr, DecidableEq

/-- The `mpesa-callback` handler.  `laterThrow` models any exception
raised inside the try block after parsing (e.g. while touching the
database client); the catch clause answers with the same fixed
acknowledgment. -/
def mpesa_callback (method : String) (body : CallbackBody)
    (laterThrow : Bool) : CallbackResponse :=
  if method == "OPTIONS" then .preflight
  else
    match body with
    | .parseError => .ack 200 ⟨0, "Accepted"⟩
    | .missingStk => .ack 200 ⟨0, "Accepted"⟩
    | .stk rc =>
        if laterThrow then .ack 200 ⟨0, "Accepted"⟩
        else if rc == 0 then .ack 200 ⟨0, "Accepted"⟩
        else .ack 200 ⟨0, "Accepted"⟩

/-- C9: every non-OPTIONS request — success payload, failure payload,
missing stkCallback, unparsable JSON, or an internal exception — is
answered with HTTP 200 and the fixed body ResultCode 0 / "Accepted". -/
theorem mpesa_callback_always_ack (method : String) (body : CallbackBody)
    (laterThrow : Bool) (hm : method ≠ "OPTIONS") :
    mpesa_callback method body laterThrow = .ack 200 ⟨0, "Accepted"⟩ := by
  unfold mpesa_callback
  rw [if_neg (by simpa using hm)]
  cases body with
  | parseError => rfl
  | missingStk => rfl
  | stk rc =>
    by_cases hl : laterThrow <;> by_cases hr : (rc == 0) = true <;>
      simp [hl, hr]

/-- C9 witness: a POST whose JSON body fails to parse is acknowledged with
the fixed 200 body. -/
theorem mpesa_callback_always_ack_witness :
    mpesa_callback "POST" .parseError true = .ack 200 ⟨0, "Accepted"⟩ :=
  mpesa_callback_always_ack "POST" .parseError true (by decide)

/-- A row of `public.user_roles`; the schema allows several rows per user
(UNIQUE is on the pair (user_id, role)), role rendered as its text value. -/
structure UserRole where
  id : Nat
  user_id : Nat
  role : String
  deriving Repr, DecidableEq

/-- The `.single()` query of `admin-actions`:
`SELECT role FROM user_roles WHERE user_id = callerId` errors (returns no
data) unless exactly one row matches. -/
def singleRoleRow (roles : List UserRole) (callerId : Nat) : Option UserRole :=
  match roles.filter (fun r => r.user_id == callerId) with
  | [r] => some r
  | _ => none

/-- The admin gate of `admin-actions`:
`if (roleError || roleData?.role !== "admin")` fail, else proceed. -/
def adminCheckPasses (roles : List UserRole) (callerId : Nat) : Bool :=
  match singleRoleRow roles callerId with
  | some r => r.role == "admin"
  | none => false

/-- The authorization-stage outcome of the `admin-actions` handler: either
the 403 rejection response, or none meaning the requested action proceeds. -/
structure AdminRejection where
  status : Nat
  error : String
  deriving Repr, DecidableEq

/-- The authorization stage of `admin-actions` for an authenticated
caller: reject with 403 "Admin access required" unless the admin check
passes. -/
def admin_actions_auth (roles : List UserRole) (callerId : Nat) :
    Option AdminRejection :=
  if adminCheckPasses roles callerId then none
  else some { status := 403, error := "Admin access required" }

/-- C10: the gate passes exactly when the caller has exactly one
user_roles row and it is the admin role; with zero rows, or two or more
rows — even when one of them is admin — the caller is rejected with 403
"Admin access required" before any action runs. -/
theorem admin_actions_requires_single_admin_row (roles : List UserRole)
    (callerId : Nat) :
    (adminCheckPasses roles callerId = true ↔
      ∃ r, roles.filter (fun x => x.user_id == callerId) = [r]
        ∧ r.role = "admin")
    ∧ ((roles.filter (fun x => x.user_id == callerId)).length ≠ 1 →
        admin_actions_auth roles callerId =
          some { status := 403, error := "Admin access required" })
    ∧ (adminCheckPasses roles callerId = false →
        admin_actions_auth roles callerId =
          some { status := 403, error := "Admin access required" }) := by
  refine ⟨?_, ?_, ?_⟩
  · unfold adminCheckPasses singleRoleRow
    cases h : roles.filter (fun x => x.user_id == callerId) with
    | nil =>
      simp
    | cons r rs =>
      cases rs with
      | nil =>
        simp
      | cons s ss =>
        constructor
        · intro hv
          cases hv
        · rintro ⟨t, ht, _⟩
          cases ht
  · intro hlen
    have hfail : adminCheckPasses roles callerId = false := by
      unfold adminCheckPasses singleRoleRow
      cases h : roles.filter (fun x => x.user_id == callerId) with
      | nil => rfl
      | cons r rs =>
        cases rs with
        | nil =>
          rw [h] at hlen
          exact absurd rfl hlen
        | cons s ss => rfl
    unfold admin_actions_auth
    rw [hfail]
    rfl
  · intro hfail
    unfold admin_actions_auth
    rw [hfail]
    rfl

/-- C10 witness: a caller holding both a customer row and an admin row is
rejected with 403 even though one of the roles is admin. -/
theorem admin_actions_requires_single_admin_row_witness :
    admin_actions_auth [⟨1, 7, "customer"⟩, ⟨2, 7, "admin"⟩] 7 =
      some { status := 403, error := "Admin access required" } :=
  (admin_actions_requires_single_admin_row
    [⟨1, 7, "customer"⟩, ⟨2, 7, "admin"⟩] 7).2.1 (by decide)

end ZanifuGuard
